import Mathlib

/-!
Shallow embedding of the IoT_Project ingestion pipeline
(`edge/edge_processor.py`, `storage/db.py`, and the read-side query of
`visualize/live_dashboard.py`) together with proofs of the specified
properties.

Modelling conventions:
* Python / JSON values that can appear in a decoded MQTT payload are the
  inductive `PyVal`; Python floats are `PyFloat` (a finite rational, NaN,
  or a signed infinity).  Real numbers are modelled as exact rationals.
* Python exceptions become the inductive `PyErr`; fallible code returns
  `Except PyErr _`.  The `try/except` in `on_message` becomes a total
  function that leaves the store untouched on any error.
* The SQLite file is the state `Location` (parent-directory flag plus an
  optional database file holding a table list and the rows with their
  rowids).  SQLite's dynamic typing is the inductive `SqlVal`.
-/

/-- A Python float: a finite value (exact rational model), NaN, or ±inf. -/
inductive PyFloat where
  | finite (q : ℚ)
  | nan
  | inf (pos : Bool)
deriving DecidableEq

/-- A decoded JSON / Python value as produced by `json.loads` on a payload.
Arrays are not modelled: no claim involves them, and every other shape a
payload field can take in the claims is covered. -/
inductive PyVal where
  | none
  | boolean (b : Bool)
  | int (n : ℤ)
  | float (f : PyFloat)
  | str (s : String)
  | dict (kvs : List (String × PyVal))

/-- A Python exception, identified by type and message. -/
inductive PyErr where
  | valueError (msg : String)
  | typeError (msg : String)
  | attributeError (msg : String)
  | jsonDecodeError (msg : String)
  | interfaceError (msg : String)
  | operationalError (msg : String)
deriving DecidableEq

/-- First-match association-list lookup (Python `dict.get(k)` on the
duplicate-free dicts `json.loads` produces). -/
def pyLookup (kvs : List (String × PyVal)) (k : String) : Option PyVal :=
  match kvs with
  | [] => Option.none
  | (k', v) :: rest => if k' = k then some v else pyLookup rest k

/-- Python truthiness (`not x` is `¬ truthy x`). -/
def truthy : PyVal → Bool
  | .none => false
  | .boolean b => b
  | .int n => n ≠ 0
  | .float (.finite q) => q ≠ 0
  | .float _ => true
  | .str s => s ≠ ""
  | .dict kvs => ¬ kvs.isEmpty

/-- `isinstance(x, dict)`. -/
def isDict : PyVal → Bool
  | .dict _ => true
  | _ => false

/-- `x.get(k, dflt)`: raises `AttributeError` when `x` is not a dict. -/
def pyGet (x : PyVal) (k : String) (dflt : PyVal) : Except PyErr PyVal :=
  match x with
  | .dict kvs => .ok ((pyLookup kvs k).getD dflt)
  | _ => .error (.attributeError "object has no attribute get")

/-- Digits of a decimal literal folded into a natural number. -/
def natOfDigits (cs : List Char) : ℕ :=
  cs.foldl (fun a c => 10 * a + (c.toNat - 48)) 0

/-- Mantissa of a float literal: `digits`, `digits.digits`, `digits.` or
`.digits` (at least one digit overall). -/
def parseMantissa (cs : List Char) : Option ℚ :=
  match cs.splitOn '.' with
  | [a] =>
      if a ≠ [] ∧ a.all Char.isDigit then some (natOfDigits a) else Option.none
  | [a, b] =>
      if (a ++ b) ≠ [] ∧ (a ++ b).all Char.isDigit then
        some ((natOfDigits (a ++ b) : ℚ) / (10 : ℚ) ^ b.length)
      else Option.none
  | _ => Option.none

/-- Optional sign: returns (isNegative, rest). -/
def stripSign : List Char → Bool × List Char
  | '+' :: cs => (false, cs)
  | '-' :: cs => (true, cs)
  | cs => (false, cs)

/-- Signed decimal integer (for the exponent part). -/
def parseSignedInt (cs : List Char) : Option ℤ :=
  let (neg, ds) := stripSign cs
  if ds ≠ [] ∧ ds.all Char.isDigit then
    some (if neg then -(natOfDigits ds : ℤ) else (natOfDigits ds : ℤ))
  else Option.none

/-- Whitespace stripped by `float(str)`. -/
def isPySpace (c : Char) : Bool :=
  c = ' ' || c = '\t' || c = '\n' || c = '\r' || c = '\x0b' || c = '\x0c'

/-- Strip surrounding whitespace from a character list. -/
def trimChars (cs : List Char) : List Char :=
  ((cs.dropWhile isPySpace).reverse.dropWhile isPySpace).reverse

/-- ASCII lower-casing (all characters relevant to float literals). -/
def lowerChar (c : Char) : Char :=
  if 'A' ≤ c ∧ c ≤ 'Z' then Char.ofNat (c.toNat + 32) else c

/-- CPython `float(str)` on an ordinary decimal / scientific literal or an
`inf` / `nan` spelling, after stripping surrounding whitespace.  The result
is the exact rational value (CPython rounds to the nearest double; the
embedding keeps reals exact). -/
def pyFloatOfString (s : String) : Option PyFloat :=
  let cs := trimChars (s.toList.map lowerChar)
  let (neg, body) := stripSign cs
  if body = "inf".toList ∨ body = "infinity".toList then
    some (.inf (!neg))
  else if body = "nan".toList then
    some .nan
  else
    match body.splitOn 'e' with
    | [m] => (parseMantissa m).map fun q => .finite (if neg then -q else q)
    | [m, e] => do
        let q ← parseMantissa m
        let ex ← parseSignedInt e
        some (.finite ((if neg then -q else q) * (10 : ℚ) ^ ex))
    | _ => Option.none

/-- The builtin `float(x)` conversion. -/
def floatBuiltin : PyVal → Except PyErr PyFloat
  | .none => .error (.typeError "float() argument must be a string or a real number, not NoneType")
  | .boolean b => .ok (.finite (if b then 1 else 0))
  | .int n => .ok (.finite (n : ℚ))
  | .float f => .ok f
  | .str s =>
      match pyFloatOfString s with
      | some f => .ok f
      | Option.none => .error (.valueError ("could not convert string to float: " ++ s))
  | .dict _ => .error (.typeError "float() argument must be a string or a real number, not dict")

/-- `edge_processor.to_float`: rejects `None`, converts with `float`, then
rejects NaN/inf; returns the finite value. -/
def to_float (x : PyVal) : Except PyErr ℚ :=
  match x with
  | .none => .error (.valueError "value is None")
  | _ =>
      match floatBuiltin x with
      | .error e => .error e
      | .ok (.finite q) => .ok q
      | .ok _ => .error (.valueError "value is NaN/Inf")

/-! ## The store (`storage/db.py`) -/

/-- A value as stored by SQLite after Python parameter binding. -/
inductive SqlVal where
  | null
  | int (n : ℤ)
  | real (q : ℚ)
  | realInf (pos : Bool)
  | text (s : String)
deriving DecidableEq

/-- Python `sqlite3` parameter binding: `None` → NULL, `bool` → integer,
`int` → integer, finite `float` → real, NaN → NULL, ±inf → infinite real,
`str` → text; a dict is not a supported parameter type. -/
def bindVal : PyVal → Option SqlVal
  | .none => some .null
  | .boolean b => some (.int (if b then 1 else 0))
  | .int n => some (.int n)
  | .float (.finite q) => some (.real q)
  | .float .nan => some .null
  | .float (.inf p) => some (.realInf p)
  | .str s => some (.text s)
  | .dict _ => Option.none

/-- One persisted `telemetry` row (the seven columns of `SCHEMA_SQL`). -/
structure Row where
  ts : SqlVal
  device_id : SqlVal
  achp : ℚ
  phr : ℚ
  awwgv : ℚ
  pdmrg : ℚ
  is_anomaly : ℤ
deriving DecidableEq

/-- Contents of the SQLite database file: its tables and the `telemetry`
rows paired with their rowids. -/
structure DbState where
  tables : List String
  rows : List (ℕ × Row)
deriving DecidableEq

/-- One `db_path` location on disk: whether the parent directory exists and
the database file, when present. -/
structure Location where
  parentDirExists : Bool
  file : Option DbState
deriving DecidableEq

/-- `sqlite3.connect(path)` with the parent directory present: opens the
file, creating an empty database when it does not exist. -/
def sqliteConnect (file : Option DbState) : DbState :=
  file.getD ⟨[], []⟩

/-- `CREATE TABLE IF NOT EXISTS name (...)`: adds the table only when it is
absent; never an error. -/
def createTableIfNotExists (name : String) (d : DbState) : DbState :=
  if name ∈ d.tables then d else { d with tables := d.tables ++ [name] }

/-- `db.init_db`: `Path(db_path).parent.mkdir(parents=True, exist_ok=True)`
then connect and run `SCHEMA_SQL`. -/
def init_db (loc : Location) : Location :=
  let d := sqliteConnect loc.file
  { parentDirExists := true, file := some (createTableIfNotExists "telemetry" d) }

/-- The SQLite rowid assigned to a fresh insert: one more than the largest
rowid in the table. -/
def nextRowid (rows : List (ℕ × Row)) : ℕ :=
  (rows.map Prod.fst).foldr max 0 + 1

/-- The in-memory reading `on_message` builds before persisting: the raw
`ts` / `device_id` values and the coerced metrics with the computed flag. -/
structure Pending where
  ts : PyVal
  device_id : PyVal
  achp : ℚ
  phr : ℚ
  awwgv : ℚ
  pdmrg : ℚ
  is_anomaly : ℤ

/-- External storage-layer condition under which a write raises (disk full,
lock contention): the environment of a single `INSERT`. -/
structure StoreEnv where
  writeFault : Bool
deriving DecidableEq

/-- `db.insert_telemetry`: connect to `db_path` and insert one row.  Errors:
the parent directory is missing (connect fails), an environmental write
fault, the `telemetry` table does not exist, or a parameter does not bind.
On success the row is appended with the next rowid — atomically: the
location either gains exactly one full row or is unchanged. -/
def insert_telemetry (env : StoreEnv) (loc : Location) (p : Pending) :
    Except PyErr Location :=
  if ¬ loc.parentDirExists then
    .error (.operationalError "unable to open database file")
  else if env.writeFault then
    .error (.operationalError "database is locked")
  else
    let d := sqliteConnect loc.file
    if "telemetry" ∉ d.tables then
      .error (.operationalError "no such table: telemetry")
    else
      match bindVal p.ts, bindVal p.device_id with
      | some tsv, some dv =>
          .ok { loc with
                file := some { d with
                  rows := d.rows ++
                    [(nextRowid d.rows,
                      ⟨tsv, dv, p.achp, p.phr, p.awwgv, p.pdmrg, p.is_anomaly⟩)] } }
      | _, _ => .error (.interfaceError "Error binding parameter")

/-! ## The ingestion pipeline (`edge/edge_processor.py`, `on_message`) -/

/-- The body of `on_message`'s `try` block up to (not including) the insert:
read `ts` / `device_id` / `metrics` (the latter defaulting to `{}`), raise
`ValueError("missing ts/device_id/metrics")` when `ts` or `device_id` is
falsy or `metrics` is not a dict, coerce the four metrics with `to_float`,
and compute `is_anomaly = 1 if achp > threshold else 0`. -/
def handle_message (threshold : ℚ) (data : PyVal) : Except PyErr Pending := do
  let ts ← pyGet data "ts" .none
  let device_id ← pyGet data "device_id" .none
  let metrics ← pyGet data "metrics" (.dict [])
  if ¬ truthy ts ∨ ¬ truthy device_id ∨ ¬ isDict metrics then
    .error (.valueError "missing ts/device_id/metrics")
  else do
    let achp ← to_float (← pyGet metrics "ACHP" .none)
    let phr ← to_float (← pyGet metrics "PHR" .none)
    let awwgv ← to_float (← pyGet metrics "AWWGV" .none)
    let pdmrg ← to_float (← pyGet metrics "PDMRG" .none)
    let is_anomaly : ℤ := if threshold < achp then 1 else 0
    .ok ⟨ts, device_id, achp, phr, awwgv, pdmrg, is_anomaly⟩

/-- The whole `on_message` callback acting on the store: the inbound
argument is the result of `msg.payload.decode` + `json.loads` (an error for
an undecodable or unparseable payload); any exception from decoding,
validation, or the insert is caught by the trailing `except`, which logs
and leaves the store unchanged. -/
def on_message (threshold : ℚ) (env : StoreEnv) (decoded : Except PyErr PyVal)
    (loc : Location) : Location :=
  match (do
      let data ← decoded
      let p ← handle_message threshold data
      insert_telemetry env loc p : Except PyErr Location) with
  | .ok loc' => loc'
  | .error _ => loc

/-- Connection state of the ingestion controller (the MQTT client loop). -/
inductive ConnState where
  | disconnected
  | connected
  | stopped
deriving DecidableEq

/-- Controller state: connection phase plus the store location. -/
structure SysState where
  conn : ConnState
  loc : Location

/-- One inbound message delivered to the controller: messages are only
delivered while subscribed, i.e. in the connected state, where `on_message`
runs; its `try/except` swallows every per-message exception, so the
connection state is never changed by message handling. -/
def step_message (threshold : ℚ) (env : StoreEnv) (decoded : Except PyErr PyVal)
    (s : SysState) : SysState :=
  match s.conn with
  | .connected => ⟨.connected, on_message threshold env decoded s.loc⟩
  | c => ⟨c, s.loc⟩

/-! ## The read-side query (`visualize/live_dashboard.py`, `fetch_snapshot`) -/

/-- SQLite comparison of two storage-class-1 (numeric) values. -/
def numLt : SqlVal → SqlVal → Bool
  | .realInf p, .realInf q => ¬ p ∧ q
  | .realInf p, _ => ¬ p
  | _, .realInf q => q
  | .int a, .int b => a < b
  | .int a, .real b => (a : ℚ) < b
  | .real a, .int b => a < (b : ℚ)
  | .real a, .real b => a < b
  | _, _ => false

/-- SQLite storage-class rank for ORDER BY: NULL < numeric < TEXT. -/
def sqlRank : SqlVal → ℕ
  | .null => 0
  | .int _ => 1
  | .real _ => 1
  | .realInf _ => 1
  | .text _ => 2

/-- Lexicographic comparison on code points (equals SQLite's byte-wise
BINARY collation on the UTF-8 encoding, which is code-point monotone). -/
def charListLt : List Char → List Char → Bool
  | [], [] => false
  | [], _ :: _ => true
  | _ :: _, [] => false
  | a :: as, b :: bs =>
      a.toNat < b.toNat || (a.toNat = b.toNat && charListLt as bs)

/-- SQLite ORDER BY comparison: by storage class, then numerically for
numeric values and byte-wise for text. -/
def sqliteLt (a b : SqlVal) : Bool :=
  if sqlRank a ≠ sqlRank b then sqlRank a < sqlRank b
  else
    match a, b with
    | .text s, .text t => charListLt s.toList t.toList
    | _, _ => numLt a b

/-- SQL `=` in a WHERE clause: NULL never matches. -/
def sqlEq (a b : SqlVal) : Bool :=
  a ≠ .null ∧ b ≠ .null ∧ ¬ sqliteLt a b ∧ ¬ sqliteLt b a

/-- `ORDER BY ts DESC, rowid DESC`: row `a` may be listed no later than
row `b`. -/
def snapshotOrder (a b : ℕ × Row) : Prop :=
  sqliteLt b.2.ts a.2.ts = true ∨ (a.2.ts = b.2.ts ∧ b.1 ≤ a.1)

instance : DecidableRel snapshotOrder := fun a b => by
  unfold snapshotOrder
  infer_instance

/-- The `last_rows` query of `fetch_snapshot`:
`SELECT ... FROM telemetry WHERE device_id=? ORDER BY ts DESC, rowid DESC
LIMIT ?` (the model keeps the rowid with each returned row; the SQL
projects a subset of the columns). -/
def fetch_last_rows (loc : Location) (device : SqlVal) (n : ℕ) :
    List (ℕ × Row) :=
  let d := sqliteConnect loc.file
  (((d.rows.filter fun r => sqlEq r.2.device_id device).insertionSort
      snapshotOrder).take n)

/-! ## Decomposition lemmas for the proofs -/

/-- The metric-coercion and classification stage of the `try` block (the
four `to_float` calls and the anomaly rule), factored out for the proofs:
`handle_message` is definitionally this stage after the field checks. -/
def metricsStage (threshold : ℚ) (ts device_id metrics : PyVal) :
    Except PyErr Pending := do
  let achp ← to_float (← pyGet metrics "ACHP" .none)
  let phr ← to_float (← pyGet metrics "PHR" .none)
  let awwgv ← to_float (← pyGet metrics "AWWGV" .none)
  let pdmrg ← to_float (← pyGet metrics "PDMRG" .none)
  let is_anomaly : ℤ := if threshold < achp then 1 else 0
  .ok ⟨ts, device_id, achp, phr, awwgv, pdmrg, is_anomaly⟩

theorem handle_message_dict (t : ℚ) (kvs : List (String × PyVal)) :
    handle_message t (.dict kvs) =
      if ¬ truthy ((pyLookup kvs "ts").getD .none) ∨
         ¬ truthy ((pyLookup kvs "device_id").getD .none) ∨
         ¬ isDict ((pyLookup kvs "metrics").getD (.dict [])) then
        .error (.valueError "missing ts/device_id/metrics")
      else
        metricsStage t ((pyLookup kvs "ts").getD .none)
          ((pyLookup kvs "device_id").getD .none)
          ((pyLookup kvs "metrics").getD (.dict [])) := rfl

/-- `metrics.get(k)` on a decoded metrics dict: `None` when absent. -/
def metricGet (mkvs : List (String × PyVal)) (k : String) : PyVal :=
  (pyLookup mkvs k).getD .none

theorem metricsStage_dict (t : ℚ) (ts dev : PyVal) (mkvs : List (String × PyVal)) :
    metricsStage t ts dev (.dict mkvs) =
      (do
        let achp ← to_float (metricGet mkvs "ACHP")
        let phr ← to_float (metricGet mkvs "PHR")
        let awwgv ← to_float (metricGet mkvs "AWWGV")
        let pdmrg ← to_float (metricGet mkvs "PDMRG")
        Except.ok ⟨ts, dev, achp, phr, awwgv, pdmrg, (if t < achp then 1 else 0)⟩) := rfl

/-- A successful metrics stage passes `ts` and `device_id` through and sets
the flag by the strict threshold rule on the coerced `achp`. -/
theorem metricsStage_ok (t : ℚ) (ts dev ms : PyVal) (p : Pending)
    (h : metricsStage t ts dev ms = .ok p) :
    p.ts = ts ∧ p.device_id = dev ∧ p.is_anomaly = if t < p.achp then 1 else 0 := by
  simp only [metricsStage, bind, Except.bind] at h
  repeat' split at h
  all_goals cases h
  all_goals simp_all
  split <;> first | rfl | linarith

/-- `METRIC_KEYS` from `edge_processor.py`. -/
def METRIC_KEYS : List String := ["ACHP", "PHR", "AWWGV", "PDMRG"]

/-- Rows of the telemetry table at a location (empty when no file). -/
def dbRows (loc : Location) : List (ℕ × Row) :=
  (sqliteConnect loc.file).rows

/-- Tables present at a location (empty when no file). -/
def dbTables (loc : Location) : List String :=
  (sqliteConnect loc.file).tables

theorem exbind_ok {α β : Type} (a : α) (f : α → Except PyErr β) :
    (Except.ok a >>= f : Except PyErr β) = f a := rfl

theorem exbind_error {α β : Type} (e : PyErr) (f : α → Except PyErr β) :
    ((Except.error e : Except PyErr α) >>= f : Except PyErr β) = .error e := rfl

theorem on_message_decode_error (t : ℚ) (env : StoreEnv) (e : PyErr) (loc : Location) :
    on_message t env (.error e) loc = loc := rfl

theorem on_message_validate_error (t : ℚ) (env : StoreEnv) (data : PyVal)
    (loc : Location) (e : PyErr) (h : handle_message t data = .error e) :
    on_message t env (.ok data) loc = loc := by
  simp [on_message, bind, Except.bind, h]

/-- `on_message` either leaves the location unchanged (some step of the
`try` block raised and the `except` caught it) or performs exactly the
insert of the validated reading. -/
theorem on_message_cases (t : ℚ) (env : StoreEnv) (data : PyVal) (loc : Location) :
    on_message t env (.ok data) loc = loc ∨
    ∃ p loc', handle_message t data = .ok p ∧ insert_telemetry env loc p = .ok loc' ∧
      on_message t env (.ok data) loc = loc' := by
  unfold on_message
  simp only [exbind_ok]
  cases h1 : handle_message t data with
  | error e => left; simp [bind, Except.bind]
  | ok p =>
    cases h2 : insert_telemetry env loc p with
    | error e => left; simp [bind, Except.bind, h2]
    | ok loc' =>
      right
      refine ⟨p, loc', ?_, ?_, ?_⟩ <;> simp [bind, Except.bind, h1, h2]

/-- A successful `handle_message` computes the flag by the strict rule. -/
theorem handle_message_ok_flag (t : ℚ) (data : PyVal) (p : Pending)
    (h : handle_message t data = .ok p) :
    p.is_anomaly = if t < p.achp then 1 else 0 := by
  cases data
  case dict kvs =>
    rw [handle_message_dict] at h
    split at h
    · cases h
    · exact (metricsStage_ok _ _ _ _ _ h).2.2
  all_goals simp [handle_message, pyGet, bind, Except.bind] at h


/-- A successful insert appends exactly one row, carrying the pending
reading's metrics and flag, under the next rowid. -/
theorem insert_telemetry_ok (env : StoreEnv) (loc : Location) (p : Pending)
    (loc' : Location) (h : insert_telemetry env loc p = .ok loc') :
    ∃ tsv dv, bindVal p.ts = some tsv ∧ bindVal p.device_id = some dv ∧
      loc'.parentDirExists = loc.parentDirExists ∧
      dbTables loc' = dbTables loc ∧
      dbRows loc' = dbRows loc ++
        [(nextRowid (dbRows loc),
          ⟨tsv, dv, p.achp, p.phr, p.awwgv, p.pdmrg, p.is_anomaly⟩)] := by
  unfold insert_telemetry at h
  by_cases h1 : loc.parentDirExists = true
  case neg => simp [h1] at h
  case pos =>
  by_cases h2 : env.writeFault = true
  case pos => simp [h1, h2] at h
  case neg =>
  by_cases h3 : "telemetry" ∈ (sqliteConnect loc.file).tables
  case neg => simp [h1, h2, h3] at h
  case pos =>
  simp only [h1, h2, h3] at h
  cases htsv : bindVal p.ts with
  | none =>
    rw [htsv] at h
    simp at h
  | some tsv =>
    cases hdv : bindVal p.device_id with
    | none =>
      rw [htsv, hdv] at h
      simp at h
    | some dv =>
      rw [htsv, hdv] at h
      simp at h
      exact ⟨tsv, dv, rfl, rfl, by rw [← h, h1],
        by rw [← h]; simp [dbTables, dbRows, sqliteConnect],
        by rw [← h]; simp [dbRows, sqliteConnect]⟩

/-! ## Claim C1 -/

/-- An initialized, empty store. -/
def emptyStore : Location := init_db ⟨false, Option.none⟩

/-- C1: for every reading the pipeline validates and stores under a
configured threshold, the stored `is_anomaly` flag is 1 iff the reading's
`achp` strictly exceeds the threshold; `achp` exactly equal to the
threshold is stored as normal (`is_anomaly = 0`). -/
theorem anomaly_flag_iff_strict_threshold (t : ℚ) (env : StoreEnv) (data : PyVal)
    (loc : Location) (i : ℕ) (r : Row)
    (h : dbRows (on_message t env (.ok data) loc) = dbRows loc ++ [(i, r)]) :
    (r.is_anomaly = 1 ↔ t < r.achp) ∧ (r.achp = t → r.is_anomaly = 0) := by
  rcases on_message_cases t env data loc with hsame | ⟨p, loc', h1, h2, heq⟩
  · rw [hsame] at h
    exact absurd h (by simp)
  · rw [heq] at h
    obtain ⟨tsv, dv, -, -, -, -, hrows⟩ := insert_telemetry_ok env loc p loc' h2
    rw [hrows] at h
    obtain ⟨-, rfl⟩ :
        nextRowid (dbRows loc) = i ∧
          (⟨tsv, dv, p.achp, p.phr, p.awwgv, p.pdmrg, p.is_anomaly⟩ : Row) = r := by
      have h4 := List.append_cancel_left h
      simpa using h4
    have hflag := handle_message_ok_flag t data p h1
    show (p.is_anomaly = 1 ↔ t < p.achp) ∧ (p.achp = t → p.is_anomaly = 0)
    refine ⟨?_, ?_⟩
    · rw [hflag]
      by_cases hc : t < p.achp <;> simp [hc]
    · intro he
      rw [hflag, he]
      simp

/-- A payload whose `ACHP` sits exactly on the default threshold 50. -/
def boundaryPayload : PyVal :=
  .dict [("ts", .str "2025-01-01T00:00:00Z"), ("device_id", .str "gh_01"),
         ("metrics", .dict [("ACHP", .int 50), ("PHR", .int 1),
                            ("AWWGV", .int 1), ("PDMRG", .int 1)])]

/-- The row the pipeline stores for `boundaryPayload` at threshold 50. -/
def boundaryRow : Row :=
  ⟨.text "2025-01-01T00:00:00Z", .text "gh_01", 50, 1, 1, 1, 0⟩

theorem anomaly_flag_iff_strict_threshold_witness :
    dbRows (on_message 50 ⟨false⟩ (.ok boundaryPayload) emptyStore) =
      dbRows emptyStore ++ [(1, boundaryRow)] ∧
    ((boundaryRow.is_anomaly = 1 ↔ (50 : ℚ) < boundaryRow.achp) ∧
      (boundaryRow.achp = 50 → boundaryRow.is_anomaly = 0)) :=
  ⟨by decide,
   anomaly_flag_iff_strict_threshold 50 ⟨false⟩ boundaryPayload emptyStore 1
     boundaryRow (by decide)⟩

/-! ## Claim C8 -/

/-- C8: per-message failures — a validation rejection or a persistence
error during the append — never move the controller out of the connected
state and never terminate the process: after any single message, the
controller is still connected and processes the next inbound message in
the connected state. -/
theorem per_message_failure_keeps_connected (t : ℚ) (env : StoreEnv)
    (decoded : Except PyErr PyVal) (s : SysState) (h : s.conn = .connected) :
    (step_message t env decoded s).conn = .connected ∧
    ∀ (env2 : StoreEnv) (decoded2 : Except PyErr PyVal),
      (step_message t env2 decoded2 (step_message t env decoded s)).conn =
        .connected := by
  constructor <;> simp [step_message, h]

/-- A payload that fails validation (`device_id` missing entirely). -/
def noDevicePayload : PyVal :=
  .dict [("ts", .str "2025-01-01T00:00:00Z"),
         ("metrics", .dict [("ACHP", .int 1), ("PHR", .int 1),
                            ("AWWGV", .int 1), ("PDMRG", .int 1)])]

theorem per_message_failure_keeps_connected_witness :
    (SysState.conn ⟨.connected, emptyStore⟩ = .connected ∧
      ((step_message 50 ⟨false⟩ (.ok noDevicePayload)
          ⟨.connected, emptyStore⟩).conn = .connected ∧
        ∀ (env2 : StoreEnv) (decoded2 : Except PyErr PyVal),
          (step_message 50 env2 decoded2
            (step_message 50 ⟨false⟩ (.ok noDevicePayload)
              ⟨.connected, emptyStore⟩)).conn = .connected)) ∧
    (SysState.conn ⟨.connected, emptyStore⟩ = .connected ∧
      ((step_message 50 ⟨true⟩ (.ok boundaryPayload)
          ⟨.connected, emptyStore⟩).conn = .connected ∧
        ∀ (env2 : StoreEnv) (decoded2 : Except PyErr PyVal),
          (step_message 50 env2 decoded2
            (step_message 50 ⟨true⟩ (.ok boundaryPayload)
              ⟨.connected, emptyStore⟩)).conn = .connected)) :=
  ⟨⟨rfl, per_message_failure_keeps_connected 50 ⟨false⟩ (.ok noDevicePayload)
      ⟨.connected, emptyStore⟩ rfl⟩,
   ⟨rfl, per_message_failure_keeps_connected 50 ⟨true⟩ (.ok boundaryPayload)
      ⟨.connected, emptyStore⟩ rfl⟩⟩

/-! ## Claim C9 -/

/-- C9: any metric value on which the generic `float` coercion succeeds
with a finite result is accepted by the validation step: a numeric string
is coerced to its parsed value and a boolean to 0/1, rather than being
rejected, even though the interface declares metrics as numbers. -/
theorem to_float_accepts_numeric_strings_and_booleans (s : String) (q : ℚ)
    (b : Bool) (hs : pyFloatOfString s = some (.finite q)) :
    to_float (.str s) = .ok q ∧
    to_float (.boolean b) = .ok (if b then 1 else 0) := by
  constructor
  · simp [to_float, floatBuiltin, hs]
  · cases b <;> rfl

theorem to_float_accepts_numeric_strings_and_booleans_witness :
    pyFloatOfString "51.2" = some (.finite ((512 : ℚ) / 10 ^ 1)) ∧
    ((512 : ℚ) / 10 ^ 1 = 51.2) ∧
    (to_float (.str "51.2") = .ok ((512 : ℚ) / 10 ^ 1) ∧
      to_float (.boolean true) = .ok (if true then 1 else 0)) :=
  ⟨rfl, by norm_num,
   to_float_accepts_numeric_strings_and_booleans "51.2" ((512 : ℚ) / 10 ^ 1)
     true rfl⟩

/-! ## Claim C10 -/

/-- The schema invariant on the flag column: exactly the integer 0 or 1. -/
def flagOk (r : Row) : Prop := r.is_anomaly = 0 ∨ r.is_anomaly = 1

/-- C10: every row written by the ingestion pipeline has `is_anomaly`
exactly 0 or 1, and the invariant is preserved by every message the single
writer processes. -/
theorem insert_preserves_anomaly_flag_invariant (t : ℚ) (env : StoreEnv)
    (decoded : Except PyErr PyVal) (loc : Location)
    (h : ∀ e ∈ dbRows loc, flagOk e.2) :
    ∀ e ∈ dbRows (on_message t env decoded loc), flagOk e.2 := by
  cases decoded with
  | error e => rw [on_message_decode_error]; exact h
  | ok data =>
    rcases on_message_cases t env data loc with hsame | ⟨p, loc', h1, h2, heq⟩
    · rw [hsame]; exact h
    · rw [heq]
      obtain ⟨tsv, dv, -, -, -, -, hrows⟩ := insert_telemetry_ok env loc p loc' h2
      rw [hrows]
      intro e he
      rcases List.mem_append.mp he with hold | hnew
      · exact h e hold
      · have hflag := handle_message_ok_flag t data p h1
        simp only [List.mem_singleton] at hnew
        rw [hnew]
        show p.is_anomaly = 0 ∨ p.is_anomaly = 1
        rw [hflag]
        by_cases hc : t < p.achp <;> simp [hc]

theorem insert_preserves_anomaly_flag_invariant_witness :
    (∀ e ∈ dbRows emptyStore, flagOk e.2) ∧
    ∀ e ∈ dbRows (on_message 50 ⟨false⟩ (.ok boundaryPayload) emptyStore),
      flagOk e.2 :=
  ⟨(by intro e he; cases he),
   insert_preserves_anomaly_flag_invariant 50 ⟨false⟩ (.ok boundaryPayload)
     emptyStore (by intro e he; cases he)⟩

/-! ## Claim C2 -/

/-- When the field check fails, the whole message is rejected with the
missing-field `ValueError`. -/
theorem handle_message_field_error (t : ℚ) (kvs : List (String × PyVal))
    (h : ¬ truthy ((pyLookup kvs "ts").getD .none) ∨
         ¬ truthy ((pyLookup kvs "device_id").getD .none) ∨
         ¬ isDict ((pyLookup kvs "metrics").getD (.dict []))) :
    handle_message t (.dict kvs) =
      .error (.valueError "missing ts/device_id/metrics") := by
  rw [handle_message_dict]
  exact if_pos h

/-- When some required metric fails `to_float`, the metrics stage raises
exactly the `to_float` error of the first failing metric. -/
theorem metricsStage_metric_failure (t : ℚ) (ts dev : PyVal)
    (mkvs : List (String × PyVal))
    (hfail : ∃ k ∈ METRIC_KEYS, ∃ e, to_float (metricGet mkvs k) = .error e) :
    ∃ e, metricsStage t ts dev (.dict mkvs) = .error e ∧
      ∃ x, to_float x = .error e := by
  rw [metricsStage_dict]
  obtain ⟨k, hk, e, he⟩ := hfail
  cases h1 : to_float (metricGet mkvs "ACHP") with
  | error e1 => exact ⟨e1, by simp [bind, Except.bind, h1], _, h1⟩
  | ok q1 =>
    cases h2 : to_float (metricGet mkvs "PHR") with
    | error e2 => exact ⟨e2, by simp [bind, Except.bind, h1, h2], _, h2⟩
    | ok q2 =>
      cases h3 : to_float (metricGet mkvs "AWWGV") with
      | error e3 => exact ⟨e3, by simp [bind, Except.bind, h1, h2, h3], _, h3⟩
      | ok q3 =>
        cases h4 : to_float (metricGet mkvs "PDMRG") with
        | error e4 =>
          exact ⟨e4, by simp [bind, Except.bind, h1, h2, h3, h4], _, h4⟩
        | ok q4 =>
          exfalso
          simp [METRIC_KEYS] at hk
          rcases hk with rfl | rfl | rfl | rfl <;> simp_all

/-- C2 premise: the payload object is missing one of the required fields,
or has a metric value that fails coercion (absent, non-numeric — any value
`float` rejects — NaN, or infinite). -/
def rejectedPayload (kvs : List (String × PyVal)) : Prop :=
  pyLookup kvs "ts" = Option.none ∨
  pyLookup kvs "device_id" = Option.none ∨
  pyLookup kvs "metrics" = Option.none ∨
  (∃ mkvs, pyLookup kvs "metrics" = some (.dict mkvs) ∧
    ∃ k ∈ METRIC_KEYS, ∃ e, to_float (metricGet mkvs k) = .error e)

/-- Any rejected payload leaves every `handle_message` run in an error. -/
theorem handle_message_rejects (t : ℚ) (kvs : List (String × PyVal))
    (h : rejectedPayload kvs) :
    ∃ e, handle_message t (.dict kvs) = .error e := by
  rcases h with hts | hdev | hm | ⟨mkvs, hm, hfail⟩
  · exact ⟨_, handle_message_field_error t kvs (Or.inl (by simp [hts, truthy]))⟩
  · exact ⟨_, handle_message_field_error t kvs
      (Or.inr (Or.inl (by simp [hdev, truthy])))⟩
  · by_cases hc : ¬ truthy ((pyLookup kvs "ts").getD .none) ∨
        ¬ truthy ((pyLookup kvs "device_id").getD .none) ∨
        ¬ isDict ((pyLookup kvs "metrics").getD (.dict []))
    · exact ⟨_, handle_message_field_error t kvs hc⟩
    · obtain ⟨e, he, -⟩ := metricsStage_metric_failure t
        ((pyLookup kvs "ts").getD .none)
        ((pyLookup kvs "device_id").getD .none) []
        ⟨"ACHP", by simp [METRIC_KEYS], .valueError "value is None", rfl⟩
      refine ⟨e, ?_⟩
      rw [handle_message_dict, if_neg hc]
      simpa [hm] using he
  · by_cases hc : ¬ truthy ((pyLookup kvs "ts").getD .none) ∨
        ¬ truthy ((pyLookup kvs "device_id").getD .none) ∨
        ¬ isDict ((pyLookup kvs "metrics").getD (.dict []))
    · exact ⟨_, handle_message_field_error t kvs hc⟩
    · obtain ⟨e, he, -⟩ := metricsStage_metric_failure t
        ((pyLookup kvs "ts").getD .none)
        ((pyLookup kvs "device_id").getD .none) mkvs hfail
      refine ⟨e, ?_⟩
      rw [handle_message_dict, if_neg hc]
      simpa [hm] using he

/-- C2: a payload missing `device_id`, `ts`, or `metrics`, or with any
metric value that is absent, non-numeric, NaN, or infinite, appends zero
rows: the store location is left completely unchanged (the whole reading
is rejected on any single metric failure — no partial persistence). -/
theorem invalid_payload_appends_no_rows (t : ℚ) (env : StoreEnv)
    (kvs : List (String × PyVal)) (loc : Location)
    (h : rejectedPayload kvs) :
    on_message t env (.ok (.dict kvs)) loc = loc := by
  obtain ⟨e, he⟩ := handle_message_rejects t kvs h
  exact on_message_validate_error t env _ loc e he

/-- The key/value list of `noDevicePayload`. -/
def noDeviceKvs : List (String × PyVal) :=
  [("ts", .str "2025-01-01T00:00:00Z"),
   ("metrics", .dict [("ACHP", .int 1), ("PHR", .int 1),
                      ("AWWGV", .int 1), ("PDMRG", .int 1)])]

theorem invalid_payload_appends_no_rows_witness :
    rejectedPayload noDeviceKvs ∧
    on_message 50 ⟨false⟩ (.ok (.dict noDeviceKvs)) emptyStore = emptyStore :=
  ⟨Or.inr (Or.inl rfl),
   invalid_payload_appends_no_rows 50 ⟨false⟩ noDeviceKvs emptyStore
     (Or.inr (Or.inl rfl))⟩

/-! ## Claim C3 -/

/-- A payload with `ts` and `device_id` but no `metrics` key at all. -/
def noMetricsKvs : List (String × PyVal) :=
  [("ts", .str "2025-01-01T00:00:00Z"), ("device_id", .str "gh_01")]

/-- C3 counterexample: with `metrics` absent, `data.get("metrics", {})`
yields an empty dict, which passes the `isinstance` check; the payload is
rejected only later, by `to_float` on the absent `ACHP` metric (the
metric-coercion error "value is None"), not by the missing-field check. -/
theorem absent_metrics_not_missing_field_error :
    handle_message 50 (.dict noMetricsKvs) =
      .error (.valueError "value is None") ∧
    PyErr.valueError "value is None" ≠
      PyErr.valueError "missing ts/device_id/metrics" :=
  ⟨rfl, by decide⟩

/-- C3 amended: a missing or empty `ts`, a missing or empty `device_id`,
or a `metrics` field that is present but not a mapping, is rejected with
the missing-field error.  (A payload with no `metrics` key at all instead
defaults to an empty mapping and is rejected by metric coercion.) -/
theorem missing_or_empty_fields_rejected_as_missing_field (t : ℚ)
    (kvs : List (String × PyVal))
    (h : (pyLookup kvs "ts" = Option.none ∨
            pyLookup kvs "ts" = some (.str "")) ∨
         (pyLookup kvs "device_id" = Option.none ∨
            pyLookup kvs "device_id" = some (.str "")) ∨
         (∃ v, pyLookup kvs "metrics" = some v ∧ isDict v = false)) :
    handle_message t (.dict kvs) =
      .error (.valueError "missing ts/device_id/metrics") := by
  apply handle_message_field_error
  rcases h with (h | h) | (h | h) | ⟨v, hv, hd⟩
  · exact Or.inl (by simp [h, truthy])
  · exact Or.inl (by simp [h, truthy])
  · exact Or.inr (Or.inl (by simp [h, truthy]))
  · exact Or.inr (Or.inl (by simp [h, truthy]))
  · exact Or.inr (Or.inr (by simp [hv, hd]))

/-- A payload with an empty `ts` string. -/
def emptyTsKvs : List (String × PyVal) :=
  [("ts", .str ""), ("device_id", .str "gh_01"),
   ("metrics", .dict [("ACHP", .int 1), ("PHR", .int 1),
                      ("AWWGV", .int 1), ("PDMRG", .int 1)])]

theorem missing_or_empty_fields_rejected_as_missing_field_witness :
    pyLookup emptyTsKvs "ts" = some (.str "") ∧
    handle_message 50 (.dict emptyTsKvs) =
      .error (.valueError "missing ts/device_id/metrics") :=
  ⟨rfl,
   missing_or_empty_fields_rejected_as_missing_field 50 emptyTsKvs
     (Or.inl (Or.inr rfl))⟩

/-! ## Claim C4 -/

/-- No `to_float` rejection carries the missing-field message: the two
rejection paths are distinguishable, but the metric path's message never
mentions a field. -/
theorem to_float_error_not_missing_field (x : PyVal) (e : PyErr)
    (h : to_float x = .error e) :
    e ≠ .valueError "missing ts/device_id/metrics" := by
  intro he
  subst he
  cases x with
  | none => simp [to_float] at h
  | boolean b => simp [to_float, floatBuiltin] at h
  | int n => simp [to_float, floatBuiltin] at h
  | float f => cases f <;> simp [to_float, floatBuiltin] at h
  | dict kvs => simp [to_float, floatBuiltin] at h
  | str s =>
    simp only [to_float, floatBuiltin] at h
    cases hp : pyFloatOfString s with
    | none =>
      rw [hp] at h
      simp at h
      have hlen := congrArg String.length h
      rw [String.length_append] at hlen
      have h1 : "could not convert string to float: ".length = 35 := rfl
      have h2 : "missing ts/device_id/metrics".length = 28 := rfl
      omega
    | some f =>
      rw [hp] at h
      cases f <;> simp at h

/-- Metrics object with `ACHP` absent (other three metrics present). -/
def noAchpKvs : List (String × PyVal) :=
  [("ts", .str "2025-01-01T00:00:00Z"), ("device_id", .str "gh_01"),
   ("metrics", .dict [("PHR", .int 1), ("AWWGV", .int 1), ("PDMRG", .int 1)])]

/-- Metrics object with `PHR` absent (other three metrics present). -/
def noPhrKvs : List (String × PyVal) :=
  [("ts", .str "2025-01-01T00:00:00Z"), ("device_id", .str "gh_01"),
   ("metrics", .dict [("ACHP", .int 1), ("AWWGV", .int 1), ("PDMRG", .int 1)])]

/-- C4 counterexample: two payloads whose offending metric differs (`ACHP`
absent versus `PHR` absent) are rejected with identical errors, so the
rejection cannot name which metric was the offending one. -/
theorem metric_rejection_does_not_name_metric :
    handle_message 50 (.dict noAchpKvs) = handle_message 50 (.dict noPhrKvs) ∧
    handle_message 50 (.dict noAchpKvs) =
      .error (.valueError "value is None") :=
  ⟨rfl, rfl⟩

/-- C4 amended: a payload whose required fields pass but in which some
required metric is absent, non-numeric, NaN, or infinite is rejected with
the error of the (first) failing `to_float` coercion — an error distinct
from the missing-field rejection, identifying the failure mode but not the
offending metric. -/
theorem metric_coercion_failure_rejects (t : ℚ)
    (kvs mkvs : List (String × PyVal))
    (hts : truthy ((pyLookup kvs "ts").getD .none) = true)
    (hdev : truthy ((pyLookup kvs "device_id").getD .none) = true)
    (hm : pyLookup kvs "metrics" = some (.dict mkvs))
    (hfail : ∃ k ∈ METRIC_KEYS, ∃ e, to_float (metricGet mkvs k) = .error e) :
    ∃ e, handle_message t (.dict kvs) = .error e ∧
      (∃ x, to_float x = .error e) ∧
      e ≠ .valueError "missing ts/device_id/metrics" := by
  obtain ⟨e, he, x, hx⟩ := metricsStage_metric_failure t
    ((pyLookup kvs "ts").getD .none)
    ((pyLookup kvs "device_id").getD .none) mkvs hfail
  refine ⟨e, ?_, ⟨x, hx⟩, to_float_error_not_missing_field x e hx⟩
  rw [handle_message_dict, if_neg]
  · simpa [hm] using he
  · simp [hts, hdev, hm, isDict]

theorem metric_coercion_failure_rejects_witness :
    truthy ((pyLookup noAchpKvs "ts").getD .none) = true ∧
    truthy ((pyLookup noAchpKvs "device_id").getD .none) = true ∧
    pyLookup noAchpKvs "metrics" =
      some (.dict [("PHR", .int 1), ("AWWGV", .int 1), ("PDMRG", .int 1)]) ∧
    (∃ k ∈ METRIC_KEYS, ∃ e,
      to_float (metricGet
        [("PHR", .int 1), ("AWWGV", .int 1), ("PDMRG", .int 1)] k) =
          .error e) ∧
    ∃ e, handle_message 50 (.dict noAchpKvs) = .error e ∧
      (∃ x, to_float x = .error e) ∧
      e ≠ .valueError "missing ts/device_id/metrics" :=
  ⟨rfl, rfl, rfl,
   ⟨"ACHP", by decide, .valueError "value is None", rfl⟩,
   metric_coercion_failure_rejects 50 noAchpKvs
     [("PHR", .int 1), ("AWWGV", .int 1), ("PDMRG", .int 1)] rfl rfl rfl
     ⟨"ACHP", by decide, .valueError "value is None", rfl⟩⟩

/-! ## Claim C5 -/

/-- C5: store initialization is idempotent.  A second `init_db` against the
same location is exactly a no-op (so it adds no duplicate schema object and
loses nothing); `init_db` is total (no error when the schema is already
present), keeps every persisted row, creates the parent directory path, and
leaves exactly one `telemetry` table whenever the location held at most one
before. -/
theorem init_db_idempotent_and_preserving (loc : Location) :
    init_db (init_db loc) = init_db loc ∧
    (init_db loc).parentDirExists = true ∧
    dbRows (init_db loc) = dbRows loc ∧
    "telemetry" ∈ dbTables (init_db loc) ∧
    (dbTables (init_db loc)).count "telemetry" =
      max ((dbTables loc).count "telemetry") 1 := by
  refine ⟨?_, rfl, ?_, ?_, ?_⟩
  · unfold init_db sqliteConnect createTableIfNotExists
    cases loc.file with
    | none => simp
    | some d => by_cases h : "telemetry" ∈ d.tables <;> simp [h]
  · unfold dbRows init_db sqliteConnect createTableIfNotExists
    cases loc.file with
    | none => simp
    | some d => by_cases h : "telemetry" ∈ d.tables <;> simp [h]
  · unfold dbTables init_db sqliteConnect createTableIfNotExists
    cases loc.file with
    | none => simp
    | some d => by_cases h : "telemetry" ∈ d.tables <;> simp [h]
  · unfold dbTables init_db sqliteConnect createTableIfNotExists
    cases loc.file with
    | none => simp
    | some d =>
      by_cases h : "telemetry" ∈ d.tables <;> simp [h]
      rw [List.count_eq_zero.mpr h]
      simp

/-! ## Claim C6 -/

theorem le_foldr_max (l : List ℕ) (i : ℕ) (h : i ∈ l) : i ≤ l.foldr max 0 := by
  induction l with
  | nil => cases h
  | cons a l ih =>
    rcases List.mem_cons.mp h with rfl | h'
    · exact le_max_left _ _
    · exact le_trans (ih h') (le_max_right _ _)

/-- The rowid SQLite hands out after an append is strictly larger than the
appended row's id (monotone sequence identity). -/
theorem nextRowid_lt_after_append (rows : List (ℕ × Row)) (i : ℕ) (r : Row) :
    i < nextRowid (rows ++ [(i, r)]) := by
  unfold nextRowid
  have hm : i ∈ (rows ++ [(i, r)]).map Prod.fst := by simp
  have := le_foldr_max _ _ hm
  omega

theorem charListLt_irrefl (l : List Char) : charListLt l l = false := by
  induction l with
  | nil => rfl
  | cons a as ih => simp [charListLt, ih]

theorem sqliteLt_irrefl (v : SqlVal) : sqliteLt v v = false := by
  cases v <;> simp [sqliteLt, numLt, charListLt_irrefl]

theorem sqlEq_refl (v : SqlVal) (h : v ≠ .null) : sqlEq v v = true := by
  simp [sqlEq, h, sqliteLt_irrefl]

/-- C6: appending R1 then R2 — even with identical `ts` — gives R1 a
strictly smaller rowid than R2; the rows land in append order behind the
existing rows, and on a fresh store the snapshot query ordered by
`(ts DESC, rowid DESC)` returns R2 before R1 when their timestamps (and
device) coincide — the sequence tie-break. -/
theorem append_order_and_snapshot_tiebreak (env : StoreEnv)
    (loc loc1 loc2 : Location) (p1 p2 : Pending)
    (h1 : insert_telemetry env loc p1 = .ok loc1)
    (h2 : insert_telemetry env loc1 p2 = .ok loc2) :
    ∃ e1 e2 : ℕ × Row,
      dbRows loc1 = dbRows loc ++ [e1] ∧
      dbRows loc2 = dbRows loc ++ [e1, e2] ∧
      e1.1 < e2.1 ∧
      (dbRows loc = [] → p1.ts = p2.ts → p1.device_id = p2.device_id →
        ∀ dv, bindVal p1.device_id = some dv → dv ≠ .null →
          fetch_last_rows loc2 dv 2 = [e2, e1]) := by
  obtain ⟨tsv1, dv1, hb1ts, hb1dv, -, -, hr1⟩ :=
    insert_telemetry_ok env loc p1 loc1 h1
  obtain ⟨tsv2, dv2, hb2ts, hb2dv, -, -, hr2⟩ :=
    insert_telemetry_ok env loc1 p2 loc2 h2
  refine ⟨(nextRowid (dbRows loc),
      ⟨tsv1, dv1, p1.achp, p1.phr, p1.awwgv, p1.pdmrg, p1.is_anomaly⟩),
    (nextRowid (dbRows loc1),
      ⟨tsv2, dv2, p2.achp, p2.phr, p2.awwgv, p2.pdmrg, p2.is_anomaly⟩),
    hr1, ?_, ?_, ?_⟩
  · rw [hr2, hr1]
    simp
  · rw [hr1]
    exact nextRowid_lt_after_append (dbRows loc) _ _
  · intro h0 hts hdev dv hbdv hnull
    have hdv1 : dv1 = dv := by
      rw [hb1dv] at hbdv
      exact Option.some.inj hbdv
    have hdv2 : dv2 = dv := by
      rw [← hdev, hbdv] at hb2dv
      exact (Option.some.inj hb2dv).symm
    have htsv : tsv2 = tsv1 := by
      rw [← hts, hb1ts] at hb2ts
      exact (Option.some.inj hb2ts).symm
    subst hdv1 hdv2 htsv
    have hn1 : nextRowid (dbRows loc) = 1 := by rw [h0]; rfl
    have hrows2 : (sqliteConnect loc2.file).rows =
        [(1, ⟨tsv2, dv2, p1.achp, p1.phr, p1.awwgv, p1.pdmrg, p1.is_anomaly⟩),
         (2, ⟨tsv2, dv2, p2.achp, p2.phr, p2.awwgv, p2.pdmrg, p2.is_anomaly⟩)] := by
      show dbRows loc2 = _
      rw [hr2, hr1, h0]
      simp [nextRowid]
    have hno : ¬ snapshotOrder
        (1, (⟨tsv2, dv2, p1.achp, p1.phr, p1.awwgv, p1.pdmrg,
              p1.is_anomaly⟩ : Row))
        (2, (⟨tsv2, dv2, p2.achp, p2.phr, p2.awwgv, p2.pdmrg,
              p2.is_anomaly⟩ : Row)) := by
      simp [snapshotOrder, sqliteLt_irrefl]
    simp only [fetch_last_rows]
    rw [hrows2]
    simp only [List.filter, sqlEq_refl dv2 hnull]
    simp [List.insertionSort, List.orderedInsert, hno, hn1, hr1, h0, nextRowid]

/-- First reading for the C6 witness. -/
def c6p1 : Pending := ⟨.str "2025-01-01T00:00:00Z", .str "gh_01", 1, 1, 1, 1, 0⟩

/-- Second reading for the C6 witness: same `ts`, same device. -/
def c6p2 : Pending := ⟨.str "2025-01-01T00:00:00Z", .str "gh_01", 2, 2, 2, 2, 0⟩

/-- Store contents after appending `c6p1` to the fresh store. -/
def c6loc1 : Location :=
  ⟨true, some ⟨["telemetry"],
    [(1, ⟨.text "2025-01-01T00:00:00Z", .text "gh_01", 1, 1, 1, 1, 0⟩)]⟩⟩

/-- Store contents after appending `c6p2` as well. -/
def c6loc2 : Location :=
  ⟨true, some ⟨["telemetry"],
    [(1, ⟨.text "2025-01-01T00:00:00Z", .text "gh_01", 1, 1, 1, 1, 0⟩),
     (2, ⟨.text "2025-01-01T00:00:00Z", .text "gh_01", 2, 2, 2, 2, 0⟩)]⟩⟩

theorem append_order_and_snapshot_tiebreak_witness :
    insert_telemetry ⟨false⟩ emptyStore c6p1 = .ok c6loc1 ∧
    insert_telemetry ⟨false⟩ c6loc1 c6p2 = .ok c6loc2 ∧
    ∃ e1 e2 : ℕ × Row,
      dbRows c6loc1 = dbRows emptyStore ++ [e1] ∧
      dbRows c6loc2 = dbRows emptyStore ++ [e1, e2] ∧
      e1.1 < e2.1 ∧
      (dbRows emptyStore = [] → c6p1.ts = c6p2.ts →
        c6p1.device_id = c6p2.device_id →
        ∀ dv, bindVal c6p1.device_id = some dv → dv ≠ .null →
          fetch_last_rows c6loc2 dv 2 = [e2, e1]) :=
  ⟨rfl, rfl,
   append_order_and_snapshot_tiebreak ⟨false⟩ emptyStore c6loc1 c6loc2
     c6p1 c6p2 rfl rfl⟩

/-! ## Claim C7 -/

/-- The metrics of the round-trip reading: `ACHP=51.2, PHR=3.0, AWWGV=0.5,
PDMRG=10`. -/
def c7mkvs : List (String × PyVal) :=
  [("ACHP", .float (.finite 51.2)), ("PHR", .float (.finite 3)),
   ("AWWGV", .float (.finite 0.5)), ("PDMRG", .int 10)]

def c7kvs : List (String × PyVal) :=
  [("ts", .str "2025-01-01T00:00:00Z"), ("device_id", .str "gh_01"),
   ("metrics", .dict c7mkvs)]

/-- The validated reading for `c7kvs` at threshold 50. -/
def c7pending : Pending :=
  ⟨.str "2025-01-01T00:00:00Z", .str "gh_01", 51.2, 3, 0.5, ((10 : ℤ) : ℚ), 1⟩

/-- The row the pipeline stores for `c7kvs`. -/
def c7row : Row :=
  ⟨.text "2025-01-01T00:00:00Z", .text "gh_01", 51.2, 3, 0.5, ((10 : ℤ) : ℚ), 1⟩

/-- The store after ingesting `c7kvs` into a fresh store. -/
def c7loc : Location := ⟨true, some ⟨["telemetry"], [(1, c7row)]⟩⟩

/-- C7: ingesting the reading `ACHP=51.2, PHR=3.0, AWWGV=0.5, PDMRG=10`
under threshold 50.0 stores one row, which is retrievable through the
snapshot query with `is_anomaly = 1` and with all four stored metric
values exactly equal to the inputs (exact rationals model the doubles, so
"within floating-point tolerance" is exact equality here). -/
theorem concrete_reading_roundtrip :
    on_message 50 ⟨false⟩ (.ok (.dict c7kvs)) emptyStore = c7loc ∧
    dbRows c7loc = [(1, c7row)] ∧
    fetch_last_rows c7loc (.text "gh_01") 10 = [(1, c7row)] ∧
    c7row.is_anomaly = 1 ∧ c7row.achp = 51.2 ∧ c7row.phr = 3 ∧
    c7row.awwgv = 0.5 ∧ c7row.pdmrg = 10 := by
  have hlt : (50 : ℚ) < 51.2 := by norm_num
  have hp : handle_message 50 (.dict c7kvs) = .ok c7pending := by
    rw [handle_message_dict, if_neg (by simp [c7kvs, pyLookup, truthy, isDict])]
    have hms : (pyLookup c7kvs "metrics").getD (.dict []) = .dict c7mkvs := rfl
    rw [hms, metricsStage_dict]
    simp [metricGet, pyLookup, c7mkvs, c7kvs, to_float, floatBuiltin, bind,
      Except.bind, hlt, c7pending]
  refine ⟨?_, rfl, rfl, rfl, rfl, rfl, rfl, by norm_num [c7row]⟩
  simp only [on_message, bind, Except.bind, hp]
  rfl
